import Mathlib

/-!
Verification of the Shop3D worker pipeline (`worker/app`): a shallow
embedding of the Celery task `generate_3d_model` and its collaborators
(`tripo/preprocessor.py`, `tripo/generator.py`, `utils/storage.py`,
`utils/job_updater.py`).

External effects (HTTP downloads, the TripoSR library, trimesh export,
filesystem and Supabase I/O) are modelled by explicit outcome oracles
threaded through the definitions; the control flow, the values computed
and the order of emitted status reports follow the Python source.
-/

namespace Shop3D

/-- Python truthiness of an optional string argument: `None` and the empty
string are falsy, every other string is truthy. -/
def truthyOpt : Option String → Bool
  | none => false
  | some s => !(s == "")

/-- A value stored in a metadata dictionary (the Python dicts passed around
by the worker hold strings, integers, and `None`). -/
inductive MetaVal where
  | s (v : String)
  | n (v : Nat)
  | null
deriving DecidableEq

/-- A metadata dictionary, in insertion order. -/
abbrev Meta := List (String × MetaVal)

/-- Python truthiness of an optional dict: `None` and `{}` are falsy. -/
def truthyMeta : Option Meta → Bool
  | none => false
  | some m => !m.isEmpty

/-- A JSON value appearing in the webhook payload built by
`update_job_status` (`utils/job_updater.py`). -/
inductive JVal where
  | s (v : String)
  | i (v : Int)
  | dict (v : Meta)
deriving DecidableEq

/-- Shallow embedding of the payload construction in `update_job_status`
(`utils/job_updater.py`, lines 33-49): `jobId` and `status` are always
present; `modelUrl`, `errorMessage` and `metadata` are added under Python
truthiness tests (`if model_url:` etc.), while `progress` is added under
`if progress is not None:`. -/
def update_job_status_payload (job_id status : String)
    (model_url error_message : Option String)
    (metadata : Option Meta) (progress : Option Int) : List (String × JVal) :=
  let payload : List (String × JVal) := [("jobId", .s job_id), ("status", .s status)]
  let payload := match model_url with
    | some u => if u == "" then payload else payload ++ [("modelUrl", .s u)]
    | none => payload
  let payload := match error_message with
    | some m => if m == "" then payload else payload ++ [("errorMessage", .s m)]
    | none => payload
  let payload := match metadata with
    | some md => if md.isEmpty then payload else payload ++ [("metadata", .dict md)]
    | none => payload
  match progress with
  | some p => payload ++ [("progress", .i p)]
  | none => payload

/-- Python `str.split(sep)` for a one-character separator, at the
character-list level: adjacent separators yield empty segments and the
empty string splits to `[""]`, exactly as in Python. -/
def splitOnChar (c : Char) : List Char → List String
  | [] => [""]
  | a :: rest =>
    let r := splitOnChar c rest
    if a == c then "" :: r
    else match r with
      | [] => [String.mk [a]]
      | s :: ss => String.mk (a :: s.data) :: ss

/-- Identifier normalization in `upload_model_to_supabase`
(`utils/storage.py`, line 53): `product_id.split("/")[-1] if "/" in
product_id else product_id`. -/
def clean_id (s : String) : String :=
  if s.data.contains '/' then (splitOnChar '/' s.data).getLastD s else s

/-- Storage key construction in `upload_model_to_supabase`
(`utils/storage.py`, lines 53-59): `{shop}/{clean_product_id}` then
optionally `/{clean_variant_id}` (guarded by Python truthiness of
`variant_id`), then the `.glb` suffix. -/
def storage_filename (shop product_id : String) (variant_id : Option String) : String :=
  let clean_product_id := clean_id product_id
  let filename := shop ++ "/" ++ clean_product_id
  let filename :=
    match variant_id with
    | some v => if v == "" then filename else filename ++ "/" ++ clean_id v
    | none => filename
  filename ++ ".glb"

/-- A triangle mesh as produced by `tripo/generator.py`: vertex positions
(rationals stand in for the float coordinates, which here are all exact
binary fractions), triangular faces as index triples, and RGBA per-vertex
colors. -/
structure Mesh where
  vertices : List (ℚ × ℚ × ℚ)
  faces : List (Nat × Nat × Nat)
  vertex_colors : List (Nat × Nat × Nat × Nat)
deriving DecidableEq

/-- Shallow embedding of `create_placeholder_mesh` (`tripo/generator.py`,
lines 167-206): the eight cube corners scaled by `0.5`, twelve triangular
faces, and eight RGBA vertex colors. -/
def create_placeholder_mesh : Mesh :=
  let base : List (ℚ × ℚ × ℚ) :=
    [(-1, -1, -1), (1, -1, -1), (1, 1, -1), (-1, 1, -1),
     (-1, -1, 1), (1, -1, 1), (1, 1, 1), (-1, 1, 1)]
  { vertices := base.map (fun v => (v.1 * (1/2 : ℚ), v.2.1 * (1/2 : ℚ), v.2.2 * (1/2 : ℚ))),
    faces := [(0, 1, 2), (0, 2, 3), (4, 6, 5), (4, 7, 6), (0, 4, 5), (0, 5, 1),
              (2, 6, 7), (2, 7, 3), (0, 3, 7), (0, 7, 4), (1, 5, 6), (1, 6, 2)],
    vertex_colors := [(255, 0, 0, 255), (0, 255, 0, 255), (0, 0, 255, 255),
                      (255, 255, 0, 255), (255, 0, 255, 255), (0, 255, 255, 255),
                      (255, 255, 255, 255), (128, 128, 128, 255)] }

/-- The process-wide `_model_cache` slot of `tripo/generator.py` holds
either a real loaded model or the placeholder sentinel dict
`{"device": ..., "status": "placeholder"}`. -/
inductive ModelHandle where
  | loaded (device : String)
  | placeholder (device : String)
deriving DecidableEq

/-- Shallow embedding of `load_triposr_model` (`tripo/generator.py`, lines
30-74): if the cache is populated it is returned unchanged; otherwise the
load is attempted (`loadOk` abstracts the try block around
`TSR.from_pretrained`), and on failure the function does not raise but
caches and returns the placeholder sentinel.  Returns the handle together
with the new cache contents. -/
def load_triposr_model (cache : Option ModelHandle) (loadOk : Bool)
    (device : String) : ModelHandle × Option ModelHandle :=
  match cache with
  | some model => (model, some model)
  | none =>
    if loadOk then
      (.loaded device, some (.loaded device))
    else
      (.placeholder device, some (.placeholder device))

/-- The mesh selection step of `generate_3d_model` (`tripo/generator.py`,
lines 129-147): a placeholder handle yields `create_placeholder_mesh`,
a loaded handle yields the TripoSR inference result (abstracted as the
`inference` argument). -/
def reconstruct_mesh (model : ModelHandle) (inference : Mesh) : Mesh :=
  match model with
  | .placeholder _ => create_placeholder_mesh
  | .loaded _ => inference

/-- Quality-to-resolution mapping of `generate_3d_model`
(`tripo/generator.py`, lines 117-125): `mc_resolution` starts at 192 and
is overridden by the `fast`/`balanced`/`quality` branches. -/
def mc_resolution (quality : String) : Nat :=
  let mc := 192
  if quality = "fast" then 128
  else if quality = "balanced" then 192
  else if quality = "quality" then 256
  else mc

/-- Contents of a file on the local filesystem: either a complete GLB
encoding of a mesh or the truncated output of an interrupted write. -/
inductive FileData where
  | full (mesh : Mesh)
  | incomplete (mesh : Mesh) (bytes : Nat)
deriving DecidableEq

/-- The local filesystem, as a path-to-contents association list. -/
abbrev FS := List (String × FileData)

/-- Overwrite the file at `path`. -/
def setFile (fs : FS) (path : String) (d : FileData) : FS :=
  (path, d) :: fs.filter (fun e => !(e.1 == path))

/-- Look up the file at `path`. -/
def getFile (fs : FS) (path : String) : Option FileData :=
  (fs.find? (fun e => e.1 == path)).map Prod.snd

/-- Outcome of the underlying `mesh.export(output_path, file_type='glb')`
call (and of the preceding `os.makedirs`): it completes, it raises after
writing part of the file, or it raises before any byte reaches the output
path. -/
inductive ExportOutcome where
  | ok
  | failMid (bytes : Nat) (msg : String)
  | failBefore (msg : String)

/-- Shallow embedding of `export_mesh_as_glb` (`tripo/generator.py`, lines
209-228): it calls `os.makedirs` and `mesh.export` directly on
`output_path` and, on any exception, re-raises
`Exception(f"GLB export failed: {e}")`.  The function contains no
temp-path, rename, or delete logic, so the filesystem after a failure is
exactly what the interrupted underlying write left behind. -/
def export_mesh_as_glb (mesh : Mesh) (output_path : String) (fs : FS)
    (outcome : ExportOutcome) : Except String Unit × FS :=
  match outcome with
  | .ok => (.ok (), setFile fs output_path (.full mesh))
  | .failMid n msg => (.error ("GLB export failed: " ++ msg), setFile fs output_path (.incomplete mesh n))
  | .failBefore msg => (.error ("GLB export failed: " ++ msg), fs)

/-- The export contract claimed by the specification: every failure raises,
and after a failure no partially written file is present at the output
path. -/
def export_error_contract : Prop :=
  ∀ (mesh : Mesh) (output_path : String) (fs : FS) (outcome : ExportOutcome),
    ((export_mesh_as_glb mesh output_path fs outcome).1 = .ok () ↔ outcome = .ok)
    ∧ ∀ e : String, (export_mesh_as_glb mesh output_path fs outcome).1 = .error e →
        ∀ (m : Mesh) (n : Nat),
          getFile (export_mesh_as_glb mesh output_path fs outcome).2 output_path ≠
            some (.incomplete m n)

/-- Python `enumerate`, as used by the loop in `preprocess_images`. -/
def enumFrom (i : Nat) : List α → List (Nat × α)
  | [] => []
  | a :: rest => (i, a) :: enumFrom (i + 1) rest

/-- The `for i, url in enumerate(image_urls)` loop of `preprocess_images`
(`tripo/preprocessor.py`, lines 222-229): each image is preprocessed to
`output_dir/preprocessed_{i}.png`; a per-image exception (the `preOk`
oracle abstracts the whole `preprocess_image` call: download, background
removal, crop, save) is caught and that image is skipped with `continue`. -/
def preprocess_loop (preOk : Nat → String → Bool) (output_dir : String) :
    Nat → List String → List String
  | _, [] => []
  | i, url :: rest =>
    if preOk i url then
      (output_dir ++ "/preprocessed_" ++ toString i ++ ".png") ::
        preprocess_loop preOk output_dir (i + 1) rest
    else
      preprocess_loop preOk output_dir (i + 1) rest

/-- Shallow embedding of `preprocess_images` (`tripo/preprocessor.py`,
lines 200-235): run the per-image loop, then raise
`Exception("Failed to preprocess any images")` when no image survived. -/
def preprocess_images (preOk : Nat → String → Bool) (image_urls : List String)
    (output_dir : String) : Except String (List String) :=
  let preprocessed_paths := preprocess_loop preOk output_dir 0 image_urls
  if preprocessed_paths.isEmpty then .error "Failed to preprocess any images"
  else .ok preprocessed_paths

/-- One call to `update_job_status`, recorded with the arguments the worker
passed (`utils/job_updater.py` swallows every exception, so emitting a
report never alters control flow). -/
structure StatusReport where
  jobId : String
  status : String
  modelUrl : Option String := none
  errorMessage : Option String := none
  metadata : Option Meta := none
  progress : Option Nat := none

/-- The dict returned by `generate_3d_model` on success
(`worker/app/worker.py`, lines 171-176). -/
structure JobResult where
  job_id : String
  status : String
  model_url : String
  metadata : Meta

/-- Everything observable about one execution of the `generate_3d_model`
task: the status reports emitted in order, the task's return value or
re-raised error, whether a temporary workspace was ever created, and
whether it still exists when the task returns. -/
structure RunResult where
  reports : List StatusReport
  outcome : Except String JobResult
  tempAllocated : Bool
  tempExistsAfter : Bool

/-- Outcome oracles for the effectful steps of one `generate_3d_model`
execution: `tempfile.mkdtemp`, the per-image preprocessing, the 3D
generation call, the Supabase upload, and the `shutil.rmtree` cleanup.
`update_job_status` never raises, so it needs no oracle. -/
structure Env where
  mkdtempOk : Bool
  mkdtempErr : String
  mkdtempErrType : String
  tempDirName : String
  preOk : Nat → String → Bool
  generateOk : Bool
  generateErr : String
  uploadOk : Bool
  uploadErr : String
  uploadUrl : String
  cleanupOk : Bool

/-- The `except` branch of the task (`worker/app/worker.py`, lines
178-187): a single `failed` report carrying `str(e)` and
`{"error_type": type(e).__name__}`, with no progress value. -/
def failedReport (job_id msg etype : String) : StatusReport :=
  { jobId := job_id, status := "failed", errorMessage := some msg,
    metadata := some [("error_type", .s etype)] }

/-- A `processing` checkpoint report. -/
def procReport (job_id : String) (prog : Nat) (md : Option Meta) : StatusReport :=
  { jobId := job_id, status := "processing", progress := some prog, metadata := md }

/-- Python dict merge `{**base, ...upd}`: keys of `upd` override `base`,
the remaining `base` entries are kept. -/
def dict_merge (base upd : Meta) : Meta :=
  base.filter (fun kv => upd.all (fun uv => !(uv.1 == kv.1))) ++ upd

/-- Embedding of an optional Python string placed in a dict (Python
`None` stays `None`, it is not stringified). -/
def optMetaVal : Option String → MetaVal
  | some s => .s s
  | none => .null

/-- The payload of a `generate_3d_model` task message
(`worker/app/worker.py`, lines 76-82, after the `kwargs.get` defaults). -/
structure JobInput where
  shop : Option String
  product_id : Option String
  product_handle : Option String
  variant_id : Option String
  image_urls : List String
  metadata : Meta
  quality : String

/-- The validation test of `worker/app/worker.py`, line 90:
`if not shop or not product_id or not image_urls`. -/
def validation_fails (inp : JobInput) : Bool :=
  !truthyOpt inp.shop || !truthyOpt inp.product_id || inp.image_urls.isEmpty

/-- The `ValueError` message raised on failed validation
(`worker/app/worker.py`, line 91). -/
def validation_error_msg : String :=
  "Missing required fields: shop, product_id, or image_urls"

/-- Shallow embedding of the `generate_3d_model` task
(`worker/app/worker.py`, lines 46-199).  The pipeline is sequential:
validate, report progress 5, `mkdtemp`, report 10, preprocess, report 40
and 50, generate, report 80 and 85, upload, report 95, then the terminal
`completed` report with progress 100 and the merged result metadata.  Any
exception reaches the single `except` boundary, which emits one `failed`
report and re-raises; the `finally` block removes the workspace when it
was created, and a cleanup failure is only logged. -/
def runJob (env : Env) (job_id : String) (inp : JobInput) : RunResult :=
  if validation_fails inp then
    { reports := [failedReport job_id validation_error_msg "ValueError"],
      outcome := .error validation_error_msg,
      tempAllocated := false, tempExistsAfter := false }
  else
    let r5 := procReport job_id 5 none
    if !env.mkdtempOk then
      { reports := [r5, failedReport job_id env.mkdtempErr env.mkdtempErrType],
        outcome := .error env.mkdtempErr,
        tempAllocated := false, tempExistsAfter := false }
    else
      let temp_dir := env.tempDirName
      let r10 := procReport job_id 10
        (some [("step", .s "preprocessing"), ("message", .s "Downloading and preprocessing images")])
      match preprocess_images env.preOk inp.image_urls (temp_dir ++ "/preprocessed") with
      | .error msg =>
        { reports := [r5, r10, failedReport job_id msg "Exception"],
          outcome := .error msg,
          tempAllocated := true, tempExistsAfter := !env.cleanupOk }
      | .ok preprocessed_images =>
        let r40 := procReport job_id 40 none
        let r50 := procReport job_id 50
          (some [("step", .s "generation"), ("message", .s "Running 3D generation")])
        if !env.generateOk then
          { reports := [r5, r10, r40, r50, failedReport job_id env.generateErr "Exception"],
            outcome := .error env.generateErr,
            tempAllocated := true, tempExistsAfter := !env.cleanupOk }
        else
          let r80 := procReport job_id 80 none
          let r85 := procReport job_id 85
            (some [("step", .s "upload"), ("message", .s "Uploading model to storage")])
          if !env.uploadOk then
            { reports := [r5, r10, r40, r50, r80, r85, failedReport job_id env.uploadErr "Exception"],
              outcome := .error env.uploadErr,
              tempAllocated := true, tempExistsAfter := !env.cleanupOk }
          else
            let r95 := procReport job_id 95 none
            let result_metadata := dict_merge inp.metadata
              [("quality", .s inp.quality),
               ("images_processed", .n preprocessed_images.length),
               ("product_handle", optMetaVal inp.product_handle)]
            let rdone : StatusReport :=
              { jobId := job_id, status := "completed", modelUrl := some env.uploadUrl,
                metadata := some result_metadata, progress := some 100 }
            { reports := [r5, r10, r40, r50, r80, r85, r95, rdone],
              outcome := .ok { job_id := job_id, status := "completed",
                               model_url := env.uploadUrl, metadata := result_metadata },
              tempAllocated := true, tempExistsAfter := !env.cleanupOk }

/-- The `(status, progress)` projection of a run's report sequence — the
data the temporal claims are about. -/
def reportTrace (env : Env) (job_id : String) (inp : JobInput) : List (String × Option Nat) :=
  (runJob env job_id inp).reports.map (fun r => (r.status, r.progress))

/-- Trace of a run that fails validation. -/
def traceInvalid : List (String × Option Nat) := [("failed", none)]

/-- Trace of a run where `mkdtemp` raises. -/
def traceMkdtempFail : List (String × Option Nat) :=
  [("processing", some 5), ("failed", none)]

/-- Trace of a run where no image survives preprocessing. -/
def tracePreprocessFail : List (String × Option Nat) :=
  [("processing", some 5), ("processing", some 10), ("failed", none)]

/-- Trace of a run where 3D generation raises. -/
def traceGenerateFail : List (String × Option Nat) :=
  [("processing", some 5), ("processing", some 10), ("processing", some 40),
   ("processing", some 50), ("failed", none)]

/-- Trace of a run where the Supabase upload raises. -/
def traceUploadFail : List (String × Option Nat) :=
  [("processing", some 5), ("processing", some 10), ("processing", some 40),
   ("processing", some 50), ("processing", some 80), ("processing", some 85),
   ("failed", none)]

/-- Trace of a successful run. -/
def traceSuccess : List (String × Option Nat) :=
  [("processing", some 5), ("processing", some 10), ("processing", some 40),
   ("processing", some 50), ("processing", some 80), ("processing", some 85),
   ("processing", some 95), ("completed", some 100)]

/-- Every execution of the task produces one of six report traces,
corresponding to the points at which the pipeline can fail. -/
theorem reportTrace_cases (env : Env) (job_id : String) (inp : JobInput) :
    reportTrace env job_id inp = traceInvalid ∨
    reportTrace env job_id inp = traceMkdtempFail ∨
    reportTrace env job_id inp = tracePreprocessFail ∨
    reportTrace env job_id inp = traceGenerateFail ∨
    reportTrace env job_id inp = traceUploadFail ∨
    reportTrace env job_id inp = traceSuccess := by
  unfold reportTrace runJob
  by_cases hval : validation_fails inp
  · exact Or.inl (by simp [hval, failedReport, traceInvalid])
  · by_cases hmk : env.mkdtempOk
    · rcases hpre : preprocess_images env.preOk inp.image_urls (env.tempDirName ++ "/preprocessed")
        with msg | paths
      · exact Or.inr (Or.inr (Or.inl (by
          simp [hval, hmk, hpre, failedReport, procReport, tracePreprocessFail])))
      · by_cases hgen : env.generateOk
        · by_cases hup : env.uploadOk
          · exact Or.inr (Or.inr (Or.inr (Or.inr (Or.inr (by
              simp [hval, hmk, hpre, hgen, hup, failedReport, procReport, traceSuccess])))))
          · exact Or.inr (Or.inr (Or.inr (Or.inr (Or.inl (by
              simp [hval, hmk, hpre, hgen, hup, failedReport, procReport, traceUploadFail])))))
        · exact Or.inr (Or.inr (Or.inr (Or.inl (by
            simp [hval, hmk, hpre, hgen, failedReport, procReport, traceGenerateFail]))))
    · exact Or.inr (Or.inl (by simp [hval, hmk, failedReport, procReport, traceMkdtempFail]))

/-- A list of progress values is monotonically non-decreasing. -/
def progress_mono : List Nat → Bool
  | a :: b :: rest => Nat.ble a b && progress_mono (b :: rest)
  | _ => true

/-- The status-report protocol asserted by the specification, as a
predicate on the `(status, progress)` trace: progress is monotone while
`processing`, exactly one terminal report is emitted, the terminal report
is the last one, a run with a `completed` report has progress sequence
ending at 100, and a `failed` report itself carries no progress value. -/
def report_protocol_ok (l : List (String × Option Nat)) : Prop :=
  progress_mono ((l.filter (fun p => p.1 == "processing")).filterMap Prod.snd) = true
  ∧ (l.filter (fun p => p.1 == "completed" || p.1 == "failed")).length = 1
  ∧ (l.dropLast.filter (fun p => p.1 == "completed" || p.1 == "failed")) = []
  ∧ (∀ p ∈ l, p.1 = "completed" →
      (l.filterMap Prod.snd) ≠ [] ∧ (l.filterMap Prod.snd).getLastD 0 = 100)
  ∧ (∀ p ∈ l, p.1 = "failed" → p.2 = none)

/-- A fully successful outcome environment (every effectful step succeeds). -/
def envAllOk : Env :=
  { mkdtempOk := true, mkdtempErr := "mkdtemp failed", mkdtempErrType := "OSError",
    tempDirName := "3d_gen_j1_x", preOk := fun _ _ => true,
    generateOk := true, generateErr := "3D generation failed: boom",
    uploadOk := true, uploadErr := "Supabase upload failed: boom",
    uploadUrl := "https://cdn.example.com/3d-models/acme.test/123/456.glb",
    cleanupOk := true }

/-- A well-formed job submission. -/
def inpValid : JobInput :=
  { shop := some "acme.test", product_id := some "gid://shopify/Product/123",
    product_handle := some "test-product",
    variant_id := some "gid://shopify/ProductVariant/456",
    image_urls := ["https://img.example.com/a.png"], metadata := [], quality := "fast" }

/-- A job submission with a missing required field (`shop` is absent). -/
def inpInvalid : JobInput :=
  { shop := none, product_id := some "gid://shopify/Product/123",
    product_handle := none, variant_id := none,
    image_urls := ["https://img.example.com/a.png"], metadata := [], quality := "balanced" }

/-- C1: for every job execution, the emitted status reports are
monotonically non-decreasing in progress while status is `processing`,
exactly one terminal (`completed` or `failed`) report is emitted and it is
the last report, a successful job's progress sequence ends at 100, and a
failed job emits no progress value after (or in) the failure report. -/
theorem C1_status_report_protocol (env : Env) (job_id : String) (inp : JobInput) :
    report_protocol_ok (reportTrace env job_id inp) := by
  rcases reportTrace_cases env job_id inp with h | h | h | h | h | h <;> rw [h] <;>
    unfold report_protocol_ok <;> decide

/-- C1 witness: a concrete successful run, whose trace contains a
`completed` report and whose emitted progress sequence ends at 100. -/
theorem C1_witness :
    ((reportTrace envAllOk "job-1" inpValid).filterMap Prod.snd).getLastD 0 = 100 :=
  ((C1_status_report_protocol envAllOk "job-1" inpValid).2.2.2.1
    ("completed", some 100) (by decide) rfl).2

/-- C5: the mesh-resolution parameter is 128 for `fast`, 192 for
`balanced`, 256 for `quality`, and 192 for any other value. -/
theorem C5_quality_resolution :
    mc_resolution "fast" = 128 ∧ mc_resolution "balanced" = 192 ∧
    mc_resolution "quality" = 256 ∧
    ∀ q : String, q ≠ "fast" → q ≠ "balanced" → q ≠ "quality" → mc_resolution q = 192 :=
  ⟨rfl, rfl, rfl, fun q h1 h2 h3 => by simp [mc_resolution, h1, h2, h3]⟩

/-- C5 witness: the unrecognized preset `"ultra"` maps to 192. -/
theorem C5_witness : mc_resolution "ultra" = 192 :=
  C5_quality_resolution.2.2.2 "ultra" (by decide) (by decide) (by decide)

/-- C6: a job submission missing a required field fails immediately: the
run consists of the single `failed` report for the `ValueError`, the task
re-raises the validation message, and no temporary workspace is ever
allocated. -/
theorem C6_validation_failure (env : Env) (job_id : String) (inp : JobInput)
    (h : validation_fails inp = true) :
    runJob env job_id inp =
      { reports := [failedReport job_id validation_error_msg "ValueError"],
        outcome := .error validation_error_msg,
        tempAllocated := false, tempExistsAfter := false } := by
  simp [runJob, h]

/-- C6 witness: a concrete submission with `shop` missing. -/
theorem C6_witness :
    runJob envAllOk "job-2" inpInvalid =
      { reports := [failedReport "job-2" validation_error_msg "ValueError"],
        outcome := .error validation_error_msg,
        tempAllocated := false, tempExistsAfter := false } :=
  C6_validation_failure envAllOk "job-2" inpInvalid (by decide)

/-- C7: whenever the job allocated a workspace and the recursive removal
succeeds, the workspace is gone when the task returns; and the cleanup
outcome never changes the task's reports, its result or re-raised error,
or whether a workspace was allocated. -/
theorem C7_cleanup_contract (env : Env) (job_id : String) (inp : JobInput) (b : Bool) :
    (env.cleanupOk = true → (runJob env job_id inp).tempExistsAfter = false)
    ∧ (runJob { env with cleanupOk := b } job_id inp).outcome = (runJob env job_id inp).outcome
    ∧ (runJob { env with cleanupOk := b } job_id inp).reports = (runJob env job_id inp).reports
    ∧ (runJob { env with cleanupOk := b } job_id inp).tempAllocated
        = (runJob env job_id inp).tempAllocated := by
  unfold runJob
  by_cases hval : validation_fails inp
  · simp [hval]
  · by_cases hmk : env.mkdtempOk
    · rcases hpre : preprocess_images env.preOk inp.image_urls (env.tempDirName ++ "/preprocessed")
        with msg | paths
      · simp [hval, hmk, hpre]
      · by_cases hgen : env.generateOk
        · by_cases hup : env.uploadOk
          · simp [hval, hmk, hpre, hgen, hup]
          · simp [hval, hmk, hpre, hgen, hup]
        · simp [hval, hmk, hpre, hgen]
    · simp [hval, hmk]

/-- C7 witness: in a concrete successful run with successful cleanup, the
workspace no longer exists when the task returns. -/
theorem C7_witness : (runJob envAllOk "job-3" inpValid).tempExistsAfter = false :=
  (C7_cleanup_contract envAllOk "job-3" inpValid true).1 rfl

/-- C9: when input validation fails, the single `failed` report is the
only report ever emitted: the trace has length one and contains no
`processing` report, because validation runs before the first status
update. -/
theorem C9_no_report_before_validation (env : Env) (job_id : String) (inp : JobInput)
    (h : validation_fails inp = true) :
    reportTrace env job_id inp = traceInvalid
    ∧ (reportTrace env job_id inp).length = 1
    ∧ ∀ p ∈ reportTrace env job_id inp, p.1 ≠ "processing" := by
  have ht : reportTrace env job_id inp = traceInvalid := by
    unfold reportTrace runJob
    simp [h, failedReport, traceInvalid]
  refine ⟨ht, ?_, ?_⟩ <;> rw [ht] <;> decide

/-- C9 witness: the concrete invalid submission emits exactly the one
`failed` report. -/
theorem C9_witness : reportTrace envAllOk "job-4" inpInvalid = traceInvalid :=
  (C9_no_report_before_validation envAllOk "job-4" inpInvalid (by decide)).1

/-- The preprocessing loop keeps exactly the successfully processed
images, in order, under their enumerated output names. -/
theorem preprocess_loop_eq (preOk : Nat → String → Bool) (output_dir : String)
    (urls : List String) : ∀ i : Nat,
    preprocess_loop preOk output_dir i urls =
      ((enumFrom i urls).filter (fun p => preOk p.1 p.2)).map
        (fun p => output_dir ++ "/preprocessed_" ++ toString p.1 ++ ".png") := by
  induction urls with
  | nil => intro i; rfl
  | cons url rest ih =>
    intro i
    by_cases h : preOk i url <;> simp [preprocess_loop, enumFrom, h, ih]

/-- C3: batch preprocessing processes each URL independently — the result
is exactly the per-index successes, so one image's failure only drops that
image — and the whole batch raises the no-usable-images error if and only
if zero images succeed. -/
theorem C3_batch_error_iff_none (preOk : Nat → String → Bool)
    (image_urls : List String) (output_dir : String) :
    (preprocess_images preOk image_urls output_dir = .error "Failed to preprocess any images"
      ↔ (enumFrom 0 image_urls).filter (fun p => preOk p.1 p.2) = [])
    ∧ ((enumFrom 0 image_urls).filter (fun p => preOk p.1 p.2) ≠ [] →
        preprocess_images preOk image_urls output_dir =
          .ok (((enumFrom 0 image_urls).filter (fun p => preOk p.1 p.2)).map
            (fun p => output_dir ++ "/preprocessed_" ++ toString p.1 ++ ".png"))) := by
  by_cases he : (enumFrom 0 image_urls).filter (fun p => preOk p.1 p.2) = [] <;>
    simp [preprocess_images, preprocess_loop_eq, he]

/-- The oracle for the C3 witness: preprocessing fails on the first image
and succeeds on the second. -/
def preOkSecond : Nat → String → Bool := fun i _ => i == 1

/-- C3 witness: with the first of two images failing, the batch still
succeeds and returns exactly the second image's output path. -/
theorem C3_witness :
    preprocess_images preOkSecond
      ["https://img.example.com/a.png", "https://img.example.com/b.png"] "work" =
      .ok ["work/preprocessed_1.png"] := by
  have h := (C3_batch_error_iff_none preOkSecond
    ["https://img.example.com/a.png", "https://img.example.com/b.png"] "work").2 (by decide)
  rw [h]; rfl

/-- C4: when model loading fails, the adapter does not raise (the
embedding is total): it returns and caches the placeholder handle, every
reconstruct call against the cached handle yields the fixed cube mesh
instead of the inference result, and that mesh has exactly 8 vertices, 12
triangular faces, and 8 pairwise-distinct vertex colors. -/
theorem C4_placeholder_fallback (device : String) :
    (load_triposr_model none false device).1 = .placeholder device
    ∧ (load_triposr_model none false device).2 = some (.placeholder device)
    ∧ (∀ (loadOk : Bool) (device2 : String) (inference : Mesh),
        reconstruct_mesh (load_triposr_model (some (.placeholder device)) loadOk device2).1 inference
          = create_placeholder_mesh)
    ∧ create_placeholder_mesh.vertices.length = 8
    ∧ create_placeholder_mesh.faces.length = 12
    ∧ create_placeholder_mesh.vertex_colors.length = 8
    ∧ create_placeholder_mesh.vertex_colors.Nodup :=
  ⟨rfl, rfl, fun _ _ _ => rfl, rfl, rfl, rfl, by decide⟩

/-- C4 witness: on the `cpu` device, a reconstruct call in placeholder
mode returns the cube mesh even when a later load attempt would succeed. -/
theorem C4_witness :
    reconstruct_mesh (load_triposr_model (some (.placeholder "cpu")) true "cuda").1
      { vertices := [], faces := [], vertex_colors := [] } = create_placeholder_mesh :=
  (C4_placeholder_fallback "cpu").2.2.1 true "cuda"
    { vertices := [], faces := [], vertex_colors := [] }

/-- C8: the storage key is `{shop}/{product_id}[/{variant_id}].glb` with
namespaced identifiers normalized to their final `/`-delimited segment;
in particular the Shopify GIDs for product 123 and variant 456 under shop
`acme.test` yield exactly `acme.test/123/456.glb`. -/
theorem C8_storage_key :
    storage_filename "acme.test" "gid://shopify/Product/123"
        (some "gid://shopify/ProductVariant/456") = "acme.test/123/456.glb"
    ∧ clean_id "gid://shopify/Product/123" = "123"
    ∧ clean_id "gid://shopify/ProductVariant/456" = "456"
    ∧ (∀ shop product_id variant : String, variant ≠ "" →
        storage_filename shop product_id (some variant) =
          shop ++ "/" ++ clean_id product_id ++ "/" ++ clean_id variant ++ ".glb")
    ∧ (∀ shop product_id : String,
        storage_filename shop product_id none = shop ++ "/" ++ clean_id product_id ++ ".glb") := by
  refine ⟨by decide, by decide, by decide, ?_, fun _ _ => rfl⟩
  intro shop product_id variant hv
  simp [storage_filename, hv]

/-- C8 witness: the general key shape at concrete identifiers. -/
theorem C8_witness :
    storage_filename "shop.example" "prod" (some "var") =
      "shop.example" ++ "/" ++ clean_id "prod" ++ "/" ++ clean_id "var" ++ ".glb" :=
  C8_storage_key.2.2.2.1 "shop.example" "prod" "var" (by decide)

/-- Writing a file makes it the one found at its path. -/
theorem getFile_setFile (fs : FS) (path : String) (d : FileData) :
    getFile (setFile fs path d) path = some d := by
  unfold getFile setFile
  rw [List.find?_cons_of_pos]
  · rfl
  · simp

/-- C2 counterexample: the export step, as implemented, can fail while
leaving a partially written file at the output path — there is no
temp-then-rename and no delete-on-failure. -/
theorem C2_counterexample : ¬ export_error_contract := by
  intro h
  exact (h create_placeholder_mesh "model.glb" [] (.failMid 16 "disk full")).2
    "GLB export failed: disk full" rfl create_placeholder_mesh 16
    (by simp [export_mesh_as_glb, getFile_setFile])

/-- C2 (amended): on any export failure the function raises the wrapped
`GLB export failed` error — it succeeds exactly when the underlying export
does — but it writes directly to the output path, so a failure after a
partial write leaves that partial file on disk, while a failure before any
write leaves the filesystem untouched. -/
theorem C2_export_direct_write (mesh : Mesh) (output_path : String) (fs : FS)
    (outcome : ExportOutcome) :
    ((export_mesh_as_glb mesh output_path fs outcome).1 = .ok () ↔ outcome = .ok)
    ∧ (outcome = .ok →
        getFile (export_mesh_as_glb mesh output_path fs outcome).2 output_path
          = some (.full mesh))
    ∧ (∀ (n : Nat) (msg : String), outcome = .failMid n msg →
        (export_mesh_as_glb mesh output_path fs outcome).1
            = .error ("GLB export failed: " ++ msg)
        ∧ getFile (export_mesh_as_glb mesh output_path fs outcome).2 output_path
            = some (.incomplete mesh n))
    ∧ (∀ msg : String, outcome = .failBefore msg →
        (export_mesh_as_glb mesh output_path fs outcome).1
            = .error ("GLB export failed: " ++ msg)
        ∧ (export_mesh_as_glb mesh output_path fs outcome).2 = fs) := by
  rcases outcome with _ | ⟨n, msg⟩ | ⟨msg⟩ <;>
    simp [export_mesh_as_glb, getFile_setFile]

/-- C2 witness: a concrete failing export raises the wrapped error and
leaves the partial file at the output path. -/
theorem C2_witness :
    (export_mesh_as_glb create_placeholder_mesh "out/model.glb" [] (.failMid 16 "disk full")).1
        = .error ("GLB export failed: " ++ "disk full")
    ∧ getFile (export_mesh_as_glb create_placeholder_mesh "out/model.glb" []
        (.failMid 16 "disk full")).2 "out/model.glb"
        = some (.incomplete create_placeholder_mesh 16) :=
  (C2_export_direct_write create_placeholder_mesh "out/model.glb" []
    (.failMid 16 "disk full")).2.2.1 16 "disk full" rfl

/-- C10: in the webhook payload, `modelUrl`, `errorMessage` and `metadata`
are present exactly when the corresponding argument is Python-truthy,
while `progress` is present exactly when it is not `None`; in particular a
progress of 0 is transmitted and an empty error message is dropped. -/
theorem C10_payload_truthiness :
    (∀ (job_id status : String) (model_url error_message : Option String)
        (metadata : Option Meta) (progress : Option Int),
      (("modelUrl" ∈ (update_job_status_payload job_id status model_url error_message
            metadata progress).map Prod.fst) ↔ truthyOpt model_url = true)
      ∧ (("errorMessage" ∈ (update_job_status_payload job_id status model_url error_message
            metadata progress).map Prod.fst) ↔ truthyOpt error_message = true)
      ∧ (("metadata" ∈ (update_job_status_payload job_id status model_url error_message
            metadata progress).map Prod.fst) ↔ truthyMeta metadata = true)
      ∧ (("progress" ∈ (update_job_status_payload job_id status model_url error_message
            metadata progress).map Prod.fst) ↔ progress.isSome = true))
    ∧ ("progress" ∈ (update_job_status_payload "j" "processing" none none none
          (some 0)).map Prod.fst)
    ∧ ("errorMessage" ∉ (update_job_status_payload "j" "failed" none (some "") none
          none).map Prod.fst) := by
  refine ⟨?_, by decide, by decide⟩
  intro job_id status model_url error_message metadata progress
  rcases model_url with _ | u <;> rcases error_message with _ | m <;>
    rcases metadata with _ | md <;> rcases progress with _ | p <;>
      simp only [update_job_status_payload, truthyOpt, truthyMeta] <;>
        (try split_ifs) <;> simp_all

/-- C10 witness: a failed-status payload with progress 0 and a non-empty
error message carries both the `progress` and the `errorMessage` keys. -/
theorem C10_witness :
    "errorMessage" ∈ (update_job_status_payload "j" "failed" none (some "boom") none
        (some 0)).map Prod.fst
    ∧ "progress" ∈ (update_job_status_payload "j" "failed" none (some "boom") none
        (some 0)).map Prod.fst :=
  ⟨(C10_payload_truthiness.1 "j" "failed" none (some "boom") none (some 0)).2.1.mpr
      (by decide),
   (C10_payload_truthiness.1 "j" "failed" none (some "boom") none (some 0)).2.2.2.mpr
      (by decide)⟩

end Shop3D
